import Mathlib

/-!
Verification of the heritage-route frontend and database schema.

This file gives a shallow embedding of the route-planning client
(`frontend/js/map.js`, the `APIClient` of the shared script) and of the
MySQL schema (`heritage_routes`), and proves or refutes the specified
properties against those definitions.

JavaScript numbers are modelled by `JsNum`: either `nan` (the
non-finite result of a failed `parseFloat`/`parseInt`, also standing
for `NaN`) or a finite rational value.  JavaScript comparison
operators return `false` whenever one side is `NaN`, which `jsLt`
mirrors.
-/

/-- A JavaScript number as observed by the client code: `NaN`
(or a non-finite value) or a finite numeric value. -/
inductive JsNum where
  | nan : JsNum
  | fin (q : ℚ) : JsNum
deriving DecidableEq

/-- `Number.isFinite`. -/
def JsNum.isFinite : JsNum → Bool
  | .nan => false
  | .fin _ => true

/-- The JavaScript `<` operator: `false` whenever a side is `NaN`. -/
def jsLt : JsNum → JsNum → Bool
  | .fin x, .fin y => x < y
  | _, _ => false

/-- The JavaScript `>` operator: `false` whenever a side is `NaN`. -/
def jsGt : JsNum → JsNum → Bool
  | .fin x, .fin y => y < x
  | _, _ => false

/-- JavaScript truthiness of a nullable number
(`null`/`undefined`, `0` and `NaN` are falsy). -/
def jsTruthyNum : Option JsNum → Bool
  | none => false
  | some .nan => false
  | some (.fin q) => q ≠ 0

/-- The numeric value of a `JsNum` (`0` junk value for `NaN`). -/
def JsNum.val : JsNum → ℚ
  | .nan => 0
  | .fin q => q

/-! ### buildRoute (frontend/js/map.js, lines 90-134)

`buildRoute` reads the form fields, falls back to the last clicked map
point when the parsed coordinates are not finite, validates, and only
then clears the current route and dispatches the POST request.  The
model covers the function up to the dispatch of the API request; the
state records the pieces the claim calls side effects: `currentRoute`
and whether the route results panel is displayed. -/

/-- Client-side map state observed by `buildRoute`:
`currentRoute` (a route id, `none` when cleared) and whether a route
is currently displayed in the results panel. -/
structure MapState where
  currentRoute : Option Nat
  routeDisplayed : Bool
deriving DecidableEq

/-- What `buildRoute` does after validation: show an error message and
stop, or clear the display and send the build request. -/
inductive BuildAction where
  | showError (msg : String)
  | sendRequest (lat lon : ℚ) (objectsCount : JsNum)
deriving DecidableEq

/-- The coordinate fallback of `buildRoute` (map.js 97-100): when the
parsed form coordinates are not finite and a map point was clicked,
both coordinates are taken from `currentStart`. -/
def resolveStart (latIn lonIn : JsNum) (currentStart : Option (ℚ × ℚ)) :
    JsNum × JsNum :=
  if (!latIn.isFinite || !lonIn.isFinite) && currentStart.isSome then
    match currentStart with
    | some p => (JsNum.fin p.1, JsNum.fin p.2)
    | none => (latIn, lonIn)
  else (latIn, lonIn)

/-- `buildRoute` (map.js 90-134) up to the dispatch of the API
request.  `latIn`/`lonIn` are the parsed form fields, `currentStart`
the last clicked point, `objectsCount` the parsed object count. -/
def buildRoute (latIn lonIn : JsNum) (currentStart : Option (ℚ × ℚ))
    (objectsCount : JsNum) (st : MapState) : MapState × BuildAction :=
  let lat := (resolveStart latIn lonIn currentStart).1
  let lon := (resolveStart latIn lonIn currentStart).2
  if !lat.isFinite || !lon.isFinite then
    (st, .showError "Пожалуйста, выберите точку старта на карте")
  else if jsLt objectsCount (.fin 2) || jsGt objectsCount (.fin 20) then
    (st, .showError "Количество объектов должно быть от 2 до 20")
  else
    (⟨none, false⟩, .sendRequest lat.val lon.val objectsCount)

/-- Whether a `BuildAction` is a rejection (visible error, no request). -/
def BuildAction.isRejection : BuildAction → Bool
  | .showError _ => true
  | .sendRequest _ _ _ => false

/-- C2 counterexample: with latitude `91` (outside `[-90,90]`),
longitude `0` and `objects_count = 5`, `buildRoute` does **not**
reject: it clears the displayed route (a side effect) and sends the
API request, because the code only checks `Number.isFinite`, never the
latitude/longitude ranges. -/
theorem buildRoute_out_of_range_lat_not_rejected :
    buildRoute (.fin 91) (.fin 0) none (.fin 5) ⟨some 7, true⟩ =
      (⟨none, false⟩, .sendRequest 91 0 (.fin 5)) := by
  decide

/-- C2 (amended): `buildRoute` rejects — visible error, no API
request, `currentRoute` and the displayed route unchanged — exactly
when the coordinate resolved from the form (falling back to the last
clicked point) is not a finite number, or the parsed `objects_count`
is a finite number outside `[2,20]`.  Finite out-of-range coordinates
are not validated here. -/
theorem buildRoute_rejects_before_lookup
    (latIn lonIn : JsNum) (currentStart : Option (ℚ × ℚ))
    (objectsCount : JsNum) (st : MapState)
    (h : (buildRoute latIn lonIn currentStart objectsCount st).2.isRejection = true) :
    ∃ msg, buildRoute latIn lonIn currentStart objectsCount st = (st, .showError msg) := by
  unfold buildRoute at h ⊢
  by_cases h1 : (!(resolveStart latIn lonIn currentStart).1.isFinite ||
      !(resolveStart latIn lonIn currentStart).2.isFinite) = true
  · simp [h1]
  · by_cases h2 : (jsLt objectsCount (.fin 2) || jsGt objectsCount (.fin 20)) = true
    · simp [h1, h2]
    · simp [h1, h2, BuildAction.isRejection] at h

/-- Witness for `buildRoute_rejects_before_lookup`: `objects_count = 1`
is rejected with the count error and no state change. -/
theorem buildRoute_rejects_before_lookup_witness :
    ∃ msg, buildRoute (.fin 55) (.fin 37) none (.fin 1) ⟨some 7, true⟩ =
      (⟨some 7, true⟩, .showError msg) :=
  buildRoute_rejects_before_lookup (.fin 55) (.fin 37) none (.fin 1) ⟨some 7, true⟩
    (by decide)

/-! ### Story cache (frontend/js/map.js, lines 300-336)

`openAiStoryModal` consults the in-page `storyCache` (a JS `Map` from
object id to story text), and only on a miss calls
`api.getObjectStory`.  The `Map` is modelled as an association list;
the outcome of the API call is a parameter: `Except.error e` for a
thrown request error with message `e`, `Except.ok d` for a response
whose (possibly missing or empty, hence falsy) `story` field is `d`.
The object id is a `Nat`; id `0` is falsy in JS, so the function
returns before doing anything (`obj?.id` guard). -/

/-- `storyCache.get`/`has` on the association-list model of the JS `Map`. -/
def cacheGet (c : List (ℕ × String)) (id : ℕ) : Option String :=
  (c.find? (fun p => p.1 == id)).map (·.2)

/-- `storyCache.set`: replace the entry if the key is present,
otherwise append (JS `Map` keeps insertion order). -/
def cacheSet (c : List (ℕ × String)) (id : ℕ) (s : String) :
    List (ℕ × String) :=
  if c.any (fun p => p.1 == id) then
    c.map (fun p => if p.1 == id then (id, s) else p)
  else c ++ [(id, s)]

/-- The fallback text used both for a missing `story` field and for an
error without a message (map.js 330, 334). -/
def storyFallback : String := "Не удалось получить рассказ."

/-- JavaScript `a || b` for a nullable string `a`
(`null`/`undefined` and `""` are falsy). -/
def jsOrStr (a : Option String) (b : String) : String :=
  match a with
  | none => b
  | some s => if s = "" then b else s

/-- Result of one `openAiStoryModal` run: the story cache afterwards,
the text placed in the modal body (`none` when the falsy-id guard
returned before opening the modal), and whether `api.getObjectStory`
was invoked. -/
structure StoryResult where
  cache : List (ℕ × String)
  body : Option String
  apiCalled : Bool
deriving DecidableEq

/-- `openAiStoryModal` (map.js 300-336): falsy-id guard, cache-hit
path (no API call), and the miss path that calls the API, caching the
story only on success. -/
def openAiStoryModal (c : List (ℕ × String)) (id : ℕ)
    (apiResult : Except String (Option String)) : StoryResult :=
  if id = 0 then ⟨c, none, false⟩
  else
    match cacheGet c id with
    | some t => ⟨c, some t, false⟩
    | none =>
      match apiResult with
      | .ok d =>
        let story := jsOrStr d storyFallback
        ⟨cacheSet c id story, some story, true⟩
      | .error e => ⟨c, some (jsOrStr (some e) storyFallback), true⟩

theorem cacheGet_cacheSet (c : List (ℕ × String)) (id : ℕ) (s : String) :
    cacheGet (cacheSet c id s) id = some s := by
  unfold cacheGet cacheSet
  induction c with
  | nil => simp
  | cons p c ih =>
    by_cases hp : p.1 = id
    · simp [hp, List.find?]
    · by_cases hc : c.any (fun q => q.1 == id)
      · simpa [List.any_cons, hp, hc, List.find?_cons, beq_iff_eq] using
          (by simpa [hc] using ih)
      · simpa [List.any_cons, hp, hc, List.find?_cons, beq_iff_eq] using
          (by simpa [hc] using ih)

/-- C1: a cached story is served from the cache with no API call, and
two sequential `openAiStoryModal` runs for the same id (the first
already cached, or its request succeeding) display the same text,
leave the cache as the first run left it, and do not call the API a
second time. -/
theorem openAiStoryModal_cached_idempotent (c : List (ℕ × String)) (id : ℕ)
    (r1 r2 : Except String (Option String)) (hid : id ≠ 0)
    (h : (cacheGet c id).isSome = true ∨ ∃ d, r1 = .ok d) :
    (∀ t, cacheGet c id = some t →
      openAiStoryModal c id r1 = ⟨c, some t, false⟩) ∧
    (openAiStoryModal (openAiStoryModal c id r1).cache id r2 =
      ⟨(openAiStoryModal c id r1).cache, (openAiStoryModal c id r1).body, false⟩) := by
  constructor
  · intro t ht
    simp [openAiStoryModal, hid, ht]
  · rcases hc : cacheGet c id with _ | t
    · rcases h with h | ⟨d, rfl⟩
      · rw [hc] at h; simp at h
      · simp [openAiStoryModal, hid, hc, cacheGet_cacheSet]
    · simp [openAiStoryModal, hid, hc]

/-- Witness for `openAiStoryModal_cached_idempotent`: id `5`, empty
cache, first request succeeds with story `"st"`; the second run
returns the cached text without calling the API. -/
theorem openAiStoryModal_cached_idempotent_witness :
    openAiStoryModal (openAiStoryModal [] 5 (.ok (some "st"))).cache 5 (.ok (some "other")) =
      ⟨(openAiStoryModal [] 5 (.ok (some "st"))).cache,
        (openAiStoryModal [] 5 (.ok (some "st"))).body, false⟩ :=
  (openAiStoryModal_cached_idempotent [] 5 (.ok (some "st")) (.ok (some "other"))
    (by decide) (Or.inr ⟨some "st", rfl⟩)).2

/-- C3: when the story request throws, the error message is shown,
the cache is unchanged (no negative caching), and any later request
for the same id calls the API again. -/
theorem openAiStoryModal_failure_not_cached (c : List (ℕ × String)) (id : ℕ)
    (e : String) (hid : id ≠ 0) (hmiss : cacheGet c id = none) :
    openAiStoryModal c id (.error e) =
      ⟨c, some (jsOrStr (some e) storyFallback), true⟩ ∧
    (∀ r2, (openAiStoryModal (openAiStoryModal c id (.error e)).cache id r2).apiCalled
      = true) := by
  refine ⟨by simp [openAiStoryModal, hid, hmiss], ?_⟩
  intro r2
  rcases r2 with e2 | d2 <;>
    simp [openAiStoryModal, hid, hmiss]

/-- Witness for `openAiStoryModal_failure_not_cached`: id `5`, empty
cache, request throws `"net"`; the error is shown, nothing is cached,
and a retry calls the API again. -/
theorem openAiStoryModal_failure_not_cached_witness :
    openAiStoryModal [] 5 (.error "net") =
      ⟨[], some (jsOrStr (some "net") storyFallback), true⟩ ∧
    (∀ r2, (openAiStoryModal (openAiStoryModal [] 5 (.error "net")).cache 5 r2).apiCalled
      = true) :=
  openAiStoryModal_failure_not_cached [] 5 "net" (by decide) rfl

/-! ### route_objects (schema, part_001 lines 85-101)

The `route_objects` table links routes to heritage objects and
declares `UNIQUE KEY unique_route_object (route_id, object_id)`.  The
table is modelled as a list of rows; inserting a row whose
`(route_id, object_id)` pair is already present fails, which is
exactly how InnoDB enforces the unique key. -/

/-- A row of `route_objects`. -/
structure RouteObjectRow where
  route_id : ℕ
  object_id : ℕ
  sequence_number : ℕ
  distance_from_previous : Option ℚ
deriving DecidableEq

/-- The schema invariant: no two distinct rows share the pair
`(route_id, object_id)` — no object appears twice in a route. -/
def routeObjectsUnique : List RouteObjectRow → Bool
  | [] => true
  | r :: rs =>
    rs.all (fun x => !(x.route_id == r.route_id && x.object_id == r.object_id)) &&
      routeObjectsUnique rs

/-- Insert a leg row, enforcing `unique_route_object`: the insert is
refused (`none`) when a row with the same `(route_id, object_id)`
already exists, otherwise the row is appended. -/
def insertRouteObject (t : List RouteObjectRow) (r : RouteObjectRow) :
    Option (List RouteObjectRow) :=
  if t.any (fun x => x.route_id == r.route_id && x.object_id == r.object_id) then
    none
  else some (t ++ [r])

theorem routeObjectsUnique_append_single (t : List RouteObjectRow)
    (r : RouteObjectRow) (hu : routeObjectsUnique t = true)
    (hd : t.any (fun x => x.route_id == r.route_id && x.object_id == r.object_id)
      = false) : routeObjectsUnique (t ++ [r]) = true := by
  induction t with
  | nil => simp [routeObjectsUnique]
  | cons x xs ih =>
    simp only [routeObjectsUnique, Bool.and_eq_true] at hu
    simp only [List.any_cons, Bool.or_eq_false_iff] at hd
    have hrec := ih hu.2 hd.2
    have hx : (!(r.route_id == x.route_id && r.object_id == x.object_id)) = true := by
      have h1 := hd.1
      simp only [Bool.and_eq_false_iff, beq_eq_false_iff_ne, ne_eq] at h1
      simp only [Bool.not_eq_true', Bool.and_eq_false_iff, beq_eq_false_iff_ne, ne_eq]
      rcases h1 with h1 | h1
      · exact Or.inl fun hh => h1 hh.symm
      · exact Or.inr fun hh => h1 hh.symm
    simp only [List.cons_append, routeObjectsUnique, Bool.and_eq_true]
    refine ⟨?_, hrec⟩
    rw [show xs.append [r] = xs ++ [r] from rfl, List.all_append]
    simp only [List.all_cons, List.all_nil, Bool.and_eq_true, and_true, Bool.and_true]
    exact ⟨hu.1, hx⟩

/-- C4: every successful recording of a route leg preserves the
uniqueness of `(route_id, object_id)` across the table — no heritage
object ever appears twice within a route. -/
theorem insertRouteObject_preserves_unique (t t' : List RouteObjectRow)
    (r : RouteObjectRow) (hu : routeObjectsUnique t = true)
    (h : insertRouteObject t r = some t') : routeObjectsUnique t' = true := by
  unfold insertRouteObject at h
  by_cases hd : t.any (fun x => x.route_id == r.route_id && x.object_id == r.object_id)
  · simp [hd] at h
  · simp only [hd, if_neg, Bool.not_eq_true] at h
    cases h
    exact routeObjectsUnique_append_single t r hu (by simpa using hd)

/-- Witness for `insertRouteObject_preserves_unique`: inserting leg
`(route 1, object 3)` into a table that holds `(route 1, object 2)`
succeeds and keeps the invariant. -/
theorem insertRouteObject_preserves_unique_witness :
    routeObjectsUnique [⟨1, 2, 1, none⟩, ⟨1, 3, 2, some 120⟩] = true :=
  insertRouteObject_preserves_unique [⟨1, 2, 1, none⟩]
    [⟨1, 2, 1, none⟩, ⟨1, 3, 2, some 120⟩] ⟨1, 3, 2, some 120⟩
    (by decide) (by decide)

/-! ### displayRoute (frontend/js/map.js, lines 139-186)

`displayRoute` sorts a copy of `route.objects` with the comparator
`(a, b) => a.sequence_number - b.sequence_number` (returning `0` when
either side is not finite), then places the markers and the polyline
vertices after the start point in that sorted order.  The object
cards, however, are rendered by `displayRouteInfo` (line 220) from the
**unsorted** `route.objects` array.  JavaScript `Array.prototype.sort`
is stable (ES2019); it is modelled by a stable insertion sort driven
by the comparator predicate `seqCmpLt a b` ("comparator result is
negative", i.e. both sequence numbers finite and `a < b`). -/

/-- One element of `route.objects` as `displayRoute` consumes it. -/
structure RouteLegView where
  object_id : ℕ
  lat : ℚ
  lon : ℚ
  sequence_number : JsNum
deriving DecidableEq

/-- "The comparator of map.js 143-148 returns a negative number":
both sequence numbers are finite and `a`'s is smaller.  In every other
case the comparator returns `0`, so the sort does not reorder. -/
def seqCmpLt (a b : RouteLegView) : Bool :=
  match a.sequence_number, b.sequence_number with
  | .fin x, .fin y => x < y
  | _, _ => false

/-- Stable insertion of one element: `x` goes in front of the first
element the comparator orders strictly after it. -/
def sortInsert (x : RouteLegView) : List RouteLegView → List RouteLegView
  | [] => [x]
  | y :: ys => if seqCmpLt x y then x :: y :: ys else y :: sortInsert x ys

/-- The comparator sort of map.js 143-148 (stable insertion sort). -/
def sortBySequence (legs : List RouteLegView) : List RouteLegView :=
  legs.foldl (fun acc x => sortInsert x acc) []

/-- Marker (and balloon) order of `displayRoute`: the sorted copy. -/
def displayRouteMarkers (legs : List RouteLegView) : List RouteLegView :=
  sortBySequence legs

/-- Polyline vertices: the start point followed by the sorted legs. -/
def displayRouteCoords (start : ℚ × ℚ) (legs : List RouteLegView) :
    List (ℚ × ℚ) :=
  start :: (sortBySequence legs).map (fun l => (l.lat, l.lon))

/-- Card order of `displayRouteInfo` (map.js 220): the **original**
`route.objects` array, not the sorted copy. -/
def displayRouteCards (legs : List RouteLegView) : List RouteLegView :=
  legs

/-- The numeric sort key (junk `0` for a non-finite sequence number). -/
def legKey (l : RouteLegView) : ℚ := l.sequence_number.val

/-- A leg list is in ascending `sequence_number` order. -/
def seqAscending : List RouteLegView → Bool
  | [] => true
  | [_] => true
  | a :: b :: rest => (legKey a ≤ legKey b) && seqAscending (b :: rest)

theorem seqAscending_iff_chain (l : List RouteLegView) :
    seqAscending l = true ↔ l.Chain' (fun a b => legKey a ≤ legKey b) := by
  induction l with
  | nil => simp [seqAscending]
  | cons a t ih =>
    cases t with
    | nil => simp [seqAscending]
    | cons b rest =>
      rw [List.chain'_cons]
      unfold seqAscending
      rw [Bool.and_eq_true, decide_eq_true_eq, ih]

theorem mem_sortInsert (x z : RouteLegView) (l : List RouteLegView)
    (h : z ∈ sortInsert x l) : z = x ∨ z ∈ l := by
  induction l with
  | nil => simpa [sortInsert] using h
  | cons y ys ih =>
    unfold sortInsert at h
    by_cases hc : seqCmpLt x y
    · simp only [hc, if_pos, List.mem_cons] at h
      rcases h with h | h | h
      · exact Or.inl h
      · exact Or.inr (by simp [h])
      · exact Or.inr (List.mem_cons_of_mem _ h)
    · simp only [hc, if_neg, Bool.not_eq_true, List.mem_cons] at h
      rcases h with h | h
      · exact Or.inr (by simp [h])
      · rcases ih h with h | h
        · exact Or.inl h
        · exact Or.inr (List.mem_cons_of_mem _ h)

theorem seqCmpLt_true_iff (x y : RouteLegView)
    (hx : x.sequence_number.isFinite = true)
    (hy : y.sequence_number.isFinite = true) :
    seqCmpLt x y = true ↔ legKey x < legKey y := by
  rcases hxv : x.sequence_number with _ | qx
  · rw [hxv] at hx; simp [JsNum.isFinite] at hx
  · rcases hyv : y.sequence_number with _ | qy
    · rw [hyv] at hy; simp [JsNum.isFinite] at hy
    · simp [seqCmpLt, legKey, JsNum.val, hxv, hyv]

theorem pairwise_sortInsert (x : RouteLegView) (l : List RouteLegView)
    (hx : x.sequence_number.isFinite = true)
    (hl : ∀ y ∈ l, y.sequence_number.isFinite = true)
    (h : l.Pairwise (fun a b => legKey a ≤ legKey b)) :
    (sortInsert x l).Pairwise (fun a b => legKey a ≤ legKey b) := by
  induction l with
  | nil => simp [sortInsert]
  | cons y ys ih =>
    have hy : y.sequence_number.isFinite = true := hl y (by simp)
    have hys : ∀ z ∈ ys, z.sequence_number.isFinite = true :=
      fun z hz => hl z (List.mem_cons_of_mem _ hz)
    rw [List.pairwise_cons] at h
    unfold sortInsert
    by_cases hc : seqCmpLt x y
    · have hxy : legKey x < legKey y := (seqCmpLt_true_iff x y hx hy).mp hc
      simp only [hc, if_pos]
      rw [List.pairwise_cons]
      refine ⟨?_, by rw [List.pairwise_cons]; exact h⟩
      intro z hz
      rcases List.mem_cons.mp hz with rfl | hz
      · exact le_of_lt hxy
      · exact le_of_lt (lt_of_lt_of_le hxy (h.1 z hz))
    · have hyx : legKey y ≤ legKey x := by
        have := (seqCmpLt_true_iff x y hx hy).not.mp (by simpa using hc)
        exact le_of_not_lt this
      simp only [hc, if_neg, Bool.not_eq_true]
      rw [List.pairwise_cons]
      refine ⟨?_, ih hys h.2⟩
      intro z hz
      rcases mem_sortInsert x z ys hz with rfl | hz
      · exact hyx
      · exact h.1 z hz

theorem pairwise_sortBySequence_aux (legs acc : List RouteLegView)
    (hlegs : ∀ l ∈ legs, l.sequence_number.isFinite = true)
    (hacc : ∀ l ∈ acc, l.sequence_number.isFinite = true)
    (h : acc.Pairwise (fun a b => legKey a ≤ legKey b)) :
    (legs.foldl (fun acc x => sortInsert x acc) acc).Pairwise
      (fun a b => legKey a ≤ legKey b) := by
  induction legs generalizing acc with
  | nil => simpa using h
  | cons x xs ih =>
    have hx : x.sequence_number.isFinite = true := hlegs x (by simp)
    have hxs : ∀ l ∈ xs, l.sequence_number.isFinite = true :=
      fun l hl => hlegs l (List.mem_cons_of_mem _ hl)
    have hins : ∀ l ∈ sortInsert x acc, l.sequence_number.isFinite = true := by
      intro l hl
      rcases mem_sortInsert x l acc hl with rfl | hl
      · exact hx
      · exact hacc l hl
    simpa using ih (sortInsert x acc) hxs hins (pairwise_sortInsert x acc hx hacc h)

/-- C5 (amended): when every leg carries a finite `sequence_number`,
`displayRoute` places the markers, and the polyline vertices after the
start point, in ascending `sequence_number` order; the object cards,
rendered by `displayRouteInfo` from the unsorted array, stay in the
order the server returned. -/
theorem displayRoute_presents_legs_sorted (start : ℚ × ℚ)
    (legs : List RouteLegView)
    (hfin : ∀ l ∈ legs, l.sequence_number.isFinite = true) :
    seqAscending (displayRouteMarkers legs) = true ∧
    (displayRouteCoords start legs).tail =
      (displayRouteMarkers legs).map (fun l => (l.lat, l.lon)) ∧
    displayRouteCards legs = legs := by
  refine ⟨?_, rfl, rfl⟩
  rw [seqAscending_iff_chain]
  exact List.Pairwise.chain'
    (pairwise_sortBySequence_aux legs [] hfin (by simp) (by simp))

/-- Witness for `displayRoute_presents_legs_sorted` on a two-leg route
delivered out of order. -/
theorem displayRoute_presents_legs_sorted_witness :
    seqAscending (displayRouteMarkers
      [⟨10, 1, 2, .fin 2⟩, ⟨11, 3, 4, .fin 1⟩]) = true ∧
    (displayRouteCoords (0, 0) [⟨10, 1, 2, .fin 2⟩, ⟨11, 3, 4, .fin 1⟩]).tail =
      (displayRouteMarkers [⟨10, 1, 2, .fin 2⟩, ⟨11, 3, 4, .fin 1⟩]).map
        (fun l => (l.lat, l.lon)) ∧
    displayRouteCards [⟨10, 1, 2, .fin 2⟩, ⟨11, 3, 4, .fin 1⟩] =
      [⟨10, 1, 2, .fin 2⟩, ⟨11, 3, 4, .fin 1⟩] :=
  displayRoute_presents_legs_sorted (0, 0)
    [⟨10, 1, 2, .fin 2⟩, ⟨11, 3, 4, .fin 1⟩] (by decide)

/-- C5 counterexample: a route whose two legs arrive as sequence
numbers `[2, 1]` (all finite).  The markers are reordered ascending,
but the cards — the claim includes them — are rendered from the
unsorted array and are **not** in ascending `sequence_number` order. -/
theorem displayRoute_cards_unsorted :
    (([⟨10, 1, 2, .fin 2⟩, ⟨11, 3, 4, .fin 1⟩] :
        List RouteLegView).all (fun l => l.sequence_number.isFinite)) = true ∧
    seqAscending (displayRouteCards
      [⟨10, 1, 2, .fin 2⟩, ⟨11, 3, 4, .fin 1⟩]) = false ∧
    seqAscending (displayRouteMarkers
      [⟨10, 1, 2, .fin 2⟩, ⟨11, 3, 4, .fin 1⟩]) = true := by
  decide

/-! ### calculate_distance (schema, part_001 lines 121-128)

The SQL function `calculate_distance(point1, point2)` returns
`ST_Distance_Sphere(point1, point2)`: the spherical (great-circle)
distance between two latitude/longitude points, radius times the
central angle, computed here by the standard haversine formula over
the real numbers.  The spec fixes the Earth radius at 6,371,000 m. -/

/-- A latitude/longitude coordinate in degrees. -/
structure GeoPoint where
  lat : ℝ
  lon : ℝ

/-- Degrees to radians. -/
noncomputable def deg2rad (d : ℝ) : ℝ := d * (Real.pi / 180)

/-- The haversine term: squared sine of half the central angle. -/
noncomputable def havTerm (p1 p2 : GeoPoint) : ℝ :=
  Real.sin ((deg2rad p2.lat - deg2rad p1.lat) / 2) ^ 2 +
    Real.cos (deg2rad p1.lat) * Real.cos (deg2rad p2.lat) *
      Real.sin ((deg2rad p2.lon - deg2rad p1.lon) / 2) ^ 2

/-- `calculate_distance` / `ST_Distance_Sphere`: great-circle distance
in metres on a sphere of radius 6,371,000 m. -/
noncomputable def calculate_distance (p1 p2 : GeoPoint) : ℝ :=
  2 * 6371000 * Real.arcsin (Real.sqrt (havTerm p1 p2))

theorem sin_neg_sq (x : ℝ) : Real.sin (-x) ^ 2 = Real.sin x ^ 2 := by
  rw [Real.sin_neg]; ring

theorem havTerm_comm (p1 p2 : GeoPoint) : havTerm p1 p2 = havTerm p2 p1 := by
  unfold havTerm
  rw [show deg2rad p1.lat - deg2rad p2.lat = -(deg2rad p2.lat - deg2rad p1.lat) by ring,
    show deg2rad p1.lon - deg2rad p2.lon = -(deg2rad p2.lon - deg2rad p1.lon) by ring] at *
  rw [show (-(deg2rad p2.lat - deg2rad p1.lat)) / 2 = -((deg2rad p2.lat - deg2rad p1.lat) / 2) by ring]
  rw [show (-(deg2rad p2.lon - deg2rad p1.lon)) / 2 = -((deg2rad p2.lon - deg2rad p1.lon) / 2) by ring]
  rw [sin_neg_sq, sin_neg_sq]
  ring

/-- C6: the distance function is symmetric, zero on the diagonal, and
non-negative — and being a total function on coordinates, it is
defined for every input. -/
theorem calculate_distance_props (a b : GeoPoint) :
    calculate_distance a b = calculate_distance b a ∧
    calculate_distance a a = 0 ∧
    0 ≤ calculate_distance a b := by
  refine ⟨?_, ?_, ?_⟩
  · unfold calculate_distance
    rw [havTerm_comm]
  · unfold calculate_distance havTerm
    simp
  · have h1 : 0 ≤ Real.sqrt (havTerm a b) := Real.sqrt_nonneg _
    have h2 : 0 ≤ Real.arcsin (Real.sqrt (havTerm a b)) := Real.arcsin_nonneg.mpr h1
    unfold calculate_distance
    positivity

/-! ### setFavorite (routes table, part_001 lines 64-80) -/

/-- A row of the `routes` table (the fields `setFavorite` touches). -/
structure RouteRow where
  id : ℕ
  user_id : ℕ
  is_favorite : Bool
deriving DecidableEq

/-- Modelled from the spec: the backend handler of
`PATCH /routes/(id)/favorite` (reached through
`APIClient.setRouteFavorite`) is not among the sources — only the
client stub and the `routes` schema are.  Per spec section 4.4 it is
an ownership-checked single-field update:
`UPDATE routes SET is_favorite = value WHERE id = routeId AND user_id = userId`,
returning the updated route and failing with NotFound when no owned
row matches. -/
def setFavorite (db : List RouteRow) (routeId userId : ℕ) (v : Bool) :
    Option (List RouteRow × RouteRow) :=
  match db.find? (fun r => r.id == routeId && r.user_id == userId) with
  | none => none
  | some r =>
    let r2 : RouteRow := ⟨r.id, r.user_id, v⟩
    some (db.map (fun x => if x.id == routeId && x.user_id == userId then r2 else x), r2)

theorem setFavorite_pred_stable (routeId userId : ℕ) (v : Bool) (r : RouteRow)
    (hr : (r.id == routeId && r.user_id == userId) = true) (x : RouteRow) :
    ((if x.id == routeId && x.user_id == userId then
        (⟨r.id, r.user_id, v⟩ : RouteRow) else x).id == routeId &&
      (if x.id == routeId && x.user_id == userId then
        (⟨r.id, r.user_id, v⟩ : RouteRow) else x).user_id == userId) =
      (x.id == routeId && x.user_id == userId) := by
  by_cases hx : (x.id == routeId && x.user_id == userId) = true
  · simp only [hx, if_pos]
    exact hr
  · simp only [hx, if_neg, Bool.not_eq_true]

/-- C7: `setFavorite` is idempotent — after a successful
`setFavorite(routeId, userId, v)`, running it again with the same
value succeeds, returns the same route, changes nothing, and the
returned route's `is_favorite` equals `v`; in particular two
sequential `setFavorite(.., true)` calls leave `is_favorite = true`. -/
theorem setFavorite_idempotent (db db2 : List RouteRow) (routeId userId : ℕ)
    (v : Bool) (row : RouteRow)
    (h : setFavorite db routeId userId v = some (db2, row)) :
    setFavorite db2 routeId userId v = some (db2, row) ∧ row.is_favorite = v := by
  unfold setFavorite at h
  rcases hf : db.find? (fun r => r.id == routeId && r.user_id == userId) with _ | r
  · rw [hf] at h; simp at h
  · rw [hf] at h
    simp only [Option.some.injEq, Prod.mk.injEq] at h
    obtain ⟨hdb2, hrow⟩ := h
    have hr0 := List.find?_some hf
    have hr : (r.id == routeId && r.user_id == userId) = true := hr0
    have hfind2 : db2.find? (fun x => x.id == routeId && x.user_id == userId) =
        some (⟨r.id, r.user_id, v⟩ : RouteRow) := by
      rw [← hdb2, List.find?_map]
      have : (fun x => (((fun y : RouteRow =>
          if y.id == routeId && y.user_id == userId then
            (⟨r.id, r.user_id, v⟩ : RouteRow) else y) x).id == routeId &&
          ((fun y : RouteRow =>
          if y.id == routeId && y.user_id == userId then
            (⟨r.id, r.user_id, v⟩ : RouteRow) else y) x).user_id == userId)) =
          (fun x : RouteRow => x.id == routeId && x.user_id == userId) := by
        funext x
        exact setFavorite_pred_stable routeId userId v r hr x
      rw [show ((fun x : RouteRow => x.id == routeId && x.user_id == userId) ∘
          (fun y : RouteRow => if y.id == routeId && y.user_id == userId then
            (⟨r.id, r.user_id, v⟩ : RouteRow) else y)) =
          (fun x : RouteRow => x.id == routeId && x.user_id == userId) from this]
      rw [hf]
      simp only [Bool.and_eq_true, beq_iff_eq] at hr
      simp [hr]
    constructor
    · unfold setFavorite
      rw [hfind2]
      simp only [Option.some.injEq, Prod.mk.injEq]
      refine ⟨?_, by rw [← hrow]⟩
      rw [← hdb2, List.map_map]
      have : ((fun x : RouteRow =>
          if x.id == routeId && x.user_id == userId then
            (⟨r.id, r.user_id, v⟩ : RouteRow) else x) ∘
          (fun x : RouteRow =>
          if x.id == routeId && x.user_id == userId then
            (⟨r.id, r.user_id, v⟩ : RouteRow) else x)) =
          (fun x : RouteRow =>
          if x.id == routeId && x.user_id == userId then
            (⟨r.id, r.user_id, v⟩ : RouteRow) else x) := by
        funext x
        by_cases hx : (x.id == routeId && x.user_id == userId) = true
        · simp only [Function.comp_apply, hx, if_pos, hr]
        · simp only [Function.comp_apply, hx, if_neg, Bool.not_eq_true]
      rw [this]
    · rw [← hrow]

/-- Witness for `setFavorite_idempotent`: route 1 owned by user 2,
marked favorite twice; the second call is a successful no-op and the
flag stays `true`. -/
theorem setFavorite_idempotent_witness :
    setFavorite [⟨1, 2, true⟩] 1 2 true = some ([⟨1, 2, true⟩], ⟨1, 2, true⟩) ∧
      (⟨1, 2, true⟩ : RouteRow).is_favorite = true :=
  setFavorite_idempotent [⟨1, 2, false⟩] [⟨1, 2, true⟩] 1 2 true ⟨1, 2, true⟩
    (by decide)

/-! ### renderRouteHistory (frontend/js/map.js, lines 484-540)

`renderRouteHistory` receives the fetched route summaries, rebuilds
`favoriteRouteIds` as the set of ids of the summaries whose
`is_favorite` flag is set, and renders exactly the favorite summaries
into the history panel (non-favorites never appear; with no favorites
a placeholder message is shown instead). -/

/-- A route summary as the history panel consumes it. -/
structure RouteSummary where
  id : ℕ
  is_favorite : Bool
  start_address : Option String
  objects_count : ℕ
deriving DecidableEq

/-- The list of route summaries rendered into the history panel
(map.js 489, 496-512): exactly the favorites, in list order. -/
def renderedHistory (routes : List RouteSummary) : List RouteSummary :=
  routes.filter (fun r => r.is_favorite)

/-- The rebuilt `favoriteRouteIds` set (map.js 488), as the list
underlying the JS `Set`. -/
def favoriteRouteIds (routes : List RouteSummary) : List ℕ :=
  (routes.filter (fun r => r.is_favorite)).map (fun r => r.id)

/-- C8: the history panel shows a summary exactly when it is among
the fetched routes with `is_favorite` set, and `favoriteRouteIds`
holds exactly the ids of those favorite routes. -/
theorem renderRouteHistory_shows_exactly_favorites (routes : List RouteSummary) :
    (∀ r, r ∈ renderedHistory routes ↔ r ∈ routes ∧ r.is_favorite = true) ∧
    (∀ i, i ∈ favoriteRouteIds routes ↔
      ∃ r ∈ routes, r.is_favorite = true ∧ r.id = i) := by
  constructor
  · intro r
    simp [renderedHistory, List.mem_filter]
  · intro i
    simp only [favoriteRouteIds, List.mem_map, List.mem_filter]
    constructor
    · rintro ⟨r, ⟨hmem, hfav⟩, rfl⟩
      exact ⟨r, hmem, hfav, rfl⟩
    · rintro ⟨r, hmem, hfav, rfl⟩
      exact ⟨r, ⟨hmem, hfav⟩, rfl⟩

/-! ### APIClient.request and logout (part_000 lines 902-966)

The client state holds the in-object `token` and `user` and their
`localStorage` copies (`auth_token`, `user`), plus the current page.
`logout` clears all four and navigates to the login page.  `request`
is modelled at the point the HTTP response arrives: on status 401 it
logs out and throws the authorization error; on any other non-ok
status it throws `data.detail || data.error || 'Ошибка запроса'`;
otherwise it returns the parsed body. -/

/-- The parsed JSON body of a response, reduced to the fields
`request` inspects on failure. -/
structure ResponseBody where
  detail : Option String
  error : Option String
deriving DecidableEq

/-- An HTTP response: status code and parsed body. -/
structure HttpResponse where
  status : ℕ
  body : ResponseBody
deriving DecidableEq

/-- `fetch`'s `response.ok`: status in the 2xx range. -/
def responseOk (resp : HttpResponse) : Bool :=
  200 ≤ resp.status && resp.status < 300

/-- The `APIClient` state: in-object credentials, their
`localStorage` copies, and the current page location. -/
structure ClientState where
  token : Option String
  user : Option String
  lsAuthToken : Option String
  lsUser : Option String
  location : String
deriving DecidableEq

/-- `APIClient.logout` (part_000 902-910): clear the token and user
on the object and in `localStorage`, then navigate to `login.html`. -/
def APIClient.logout (_st : ClientState) : ClientState :=
  ⟨none, none, none, none, "login.html"⟩

/-- `APIClient.isAuthenticated` (part_000 915-917): `!!this.token`. -/
def APIClient.isAuthenticated (st : ClientState) : Bool :=
  st.token.isSome

/-- What a `request` call produces: the parsed data, or a thrown
error message. -/
inductive RequestOutcome where
  | success (body : ResponseBody)
  | thrown (msg : String)
deriving DecidableEq

/-- `APIClient.request` (part_000 937-966) from the arrival of the
response: 401 logs out and throws; other non-ok statuses throw the
server-supplied message; ok statuses return the body. -/
def APIClient.request (st : ClientState) (resp : HttpResponse) :
    ClientState × RequestOutcome :=
  if resp.status = 401 then
    (APIClient.logout st, .thrown "Необходима авторизация")
  else if !responseOk resp then
    (st, .thrown (jsOrStr resp.body.detail (jsOrStr resp.body.error "Ошибка запроса")))
  else (st, .success resp.body)

/-- C9: a 401 response makes `request` log out before rejecting: the
token and user are cleared from the client object and from
`localStorage`, `isAuthenticated` is `false` afterwards, and the call
throws the authorization error instead of returning data. -/
theorem request_401_logs_out (st : ClientState) (resp : HttpResponse)
    (h : resp.status = 401) :
    (APIClient.request st resp).1.token = none ∧
    (APIClient.request st resp).1.user = none ∧
    (APIClient.request st resp).1.lsAuthToken = none ∧
    (APIClient.request st resp).1.lsUser = none ∧
    APIClient.isAuthenticated (APIClient.request st resp).1 = false ∧
    (APIClient.request st resp).2 = .thrown "Необходима авторизация" := by
  simp [APIClient.request, APIClient.logout, APIClient.isAuthenticated, h]

/-- Witness for `request_401_logs_out` on a concrete authenticated
state and a 401 response. -/
theorem request_401_logs_out_witness :
    (APIClient.request ⟨some "t", some "u", some "t", some "u", "map.html"⟩
      ⟨401, ⟨none, none⟩⟩).1.token = none ∧
    (APIClient.request ⟨some "t", some "u", some "t", some "u", "map.html"⟩
      ⟨401, ⟨none, none⟩⟩).1.user = none ∧
    (APIClient.request ⟨some "t", some "u", some "t", some "u", "map.html"⟩
      ⟨401, ⟨none, none⟩⟩).1.lsAuthToken = none ∧
    (APIClient.request ⟨some "t", some "u", some "t", some "u", "map.html"⟩
      ⟨401, ⟨none, none⟩⟩).1.lsUser = none ∧
    APIClient.isAuthenticated
      (APIClient.request ⟨some "t", some "u", some "t", some "u", "map.html"⟩
        ⟨401, ⟨none, none⟩⟩).1 = false ∧
    (APIClient.request ⟨some "t", some "u", some "t", some "u", "map.html"⟩
      ⟨401, ⟨none, none⟩⟩).2 = .thrown "Необходима авторизация" :=
  request_401_logs_out ⟨some "t", some "u", some "t", some "u", "map.html"⟩
    ⟨401, ⟨none, none⟩⟩ rfl

/-! ### renderObjectCard (frontend/js/map.js, lines 256-286)

The card template interpolates the object fields and guards four
segments with JS truthiness: district, object type, the
distance-from-previous line, and the description.  The template is
modelled as the concatenated HTML string (whitespace-trimmed); the
distance value is formatted by `formatDistance` (map.js 386-392). -/

/-- JavaScript truthiness of a nullable string
(`null`/`undefined` and `""` are falsy). -/
def jsTruthyStr : Option String → Bool
  | none => false
  | some s => s ≠ ""

/-- `Math.round`: round half toward positive infinity. -/
def jsRound (q : ℚ) : ℤ := ⌊q + 1 / 2⌋

/-- `Number.prototype.toFixed(2)`, modelled as decimal rounding of
the hundredths. -/
def toFixed2 (q : ℚ) : String :=
  let c := jsRound (q * 100)
  let sign := if c < 0 then "-" else ""
  let n := c.natAbs
  sign ++ toString (n / 100) ++ "." ++
    (if n % 100 < 10 then "0" else "") ++ toString (n % 100)

/-- `formatDistance` (map.js 386-392): metres below `1000`, rounded;
otherwise kilometres with two decimals. -/
def formatDistance (meters : ℚ) : String :=
  if meters < 1000 then toString (jsRound meters) ++ " м"
  else toFixed2 (meters / 1000) ++ " км"

/-- A heritage object as the card template reads it. -/
structure HeritageObjectView where
  name : String
  address : String
  district : Option String
  object_type : Option String
  description : Option String
deriving DecidableEq

/-- A route leg as `renderObjectCard` receives it: the object plus
`distance_from_previous` (nullable number). -/
structure RouteItemView where
  object : HeritageObjectView
  distance_from_previous : Option JsNum
deriving DecidableEq

/-- The pin icon SVG of the card template. -/
def iconPin : String :=
  "<svg class=\"ui-icon\" viewBox=\"0 0 24 24\" aria-hidden=\"true\" focusable=\"false\"><path fill=\"currentColor\" d=\"M12 2a7 7 0 0 0-7 7c0 5.25 7 13 7 13s7-7.75 7-13a7 7 0 0 0-7-7Zm0 9.5A2.5 2.5 0 1 1 12 6.5a2.5 2.5 0 0 1 0 5Z\"/></svg>"

/-- The district icon SVG of the card template. -/
def iconDistrict : String :=
  "<svg class=\"ui-icon\" viewBox=\"0 0 24 24\" aria-hidden=\"true\" focusable=\"false\"><path fill=\"currentColor\" d=\"M12 3l9 7v11a1 1 0 0 1-1 1h-5v-7H10v7H5a1 1 0 0 1-1-1V10l8-7Zm0 2.6L6 10v10h2v-7a1 1 0 0 1 1-1h6a1 1 0 0 1 1 1v7h2V10l-6-4.4Z\"/></svg>"

/-- The distance line of the card (map.js 280), emitted only when
`distance_from_previous` is truthy. -/
def distanceLine (v : ℚ) : String :=
  "<div class=\"object-distance\">📏 " ++ formatDistance v ++
    " от предыдущей точки</div>"

/-- The card HTML up to (and excluding) the distance line: header,
number, name, address, optional district and optional type. -/
def cardPrefix (obj : HeritageObjectView) (index : ℕ) : String :=
  "<div class=\"object-card\" data-index=\"" ++ toString index ++
    "\"><div class=\"object-card-header\"><div class=\"object-number\">" ++
    toString (index + 1) ++
    "</div><div class=\"object-info\"><div class=\"object-name\">" ++ obj.name ++
    "</div><div class=\"object-address\"><span class=\"ui-icon-wrap\">" ++
    iconPin ++ "</span>" ++ obj.address ++ "</div>" ++
    (if jsTruthyStr obj.district then
      "<div class=\"object-address\"><span class=\"ui-icon-wrap\">" ++
        iconDistrict ++ "</span>" ++ obj.district.getD "" ++ "</div>"
    else "") ++
    (if jsTruthyStr obj.object_type then
      "<span class=\"object-type\">" ++ obj.object_type.getD "" ++ "</span>"
    else "")

/-- The card HTML after the distance line: optional description and
the closing tags. -/
def cardSuffix (obj : HeritageObjectView) : String :=
  (if jsTruthyStr obj.description then
    "<div style=\"margin-top: 0.5rem; color: #666; font-size: 0.9rem;\">" ++
      obj.description.getD "" ++ "</div>"
  else "") ++ "</div></div></div>"

/-- `renderObjectCard` (map.js 256-286): the card HTML, with the
distance line present exactly when `distance_from_previous` is truthy
(so `0`, `NaN` and `null` all suppress it). -/
def renderObjectCard (item : RouteItemView) (index : ℕ) : String :=
  cardPrefix item.object index ++
    (if jsTruthyNum item.distance_from_previous then
      distanceLine (item.distance_from_previous.getD JsNum.nan).val
    else "") ++
    cardSuffix item.object

theorem distanceLine_length_pos (v : ℚ) : 0 < (distanceLine v).length := by
  unfold distanceLine
  rw [String.length_append, String.length_append]
  have h : 0 < ("<div class=\"object-distance\">📏 " : String).length := by decide
  omega

/-- C10: the rendered card contains the distance-from-previous line
exactly when `distance_from_previous` is truthy; a leg whose distance
is exactly `0` renders identically to a leg whose distance is `null`. -/
theorem renderObjectCard_distance_iff_truthy (obj : HeritageObjectView)
    (d : Option JsNum) (index : ℕ) :
    (jsTruthyNum d = false →
      renderObjectCard ⟨obj, d⟩ index = renderObjectCard ⟨obj, none⟩ index) ∧
    (jsTruthyNum d = true →
      renderObjectCard ⟨obj, d⟩ index ≠ renderObjectCard ⟨obj, none⟩ index) ∧
    renderObjectCard ⟨obj, some (JsNum.fin 0)⟩ index =
      renderObjectCard ⟨obj, none⟩ index := by
  refine ⟨?_, ?_, ?_⟩
  · intro hf
    rcases d with _ | v
    · simp [renderObjectCard, jsTruthyNum]
    · rcases v with _ | q
      · simp [renderObjectCard, jsTruthyNum]
      · have hq : q = 0 := by
          by_contra hq
          simp [jsTruthyNum, hq] at hf
        subst hq
        simp [renderObjectCard, jsTruthyNum]
  · intro ht heq
    have h2 : (renderObjectCard ⟨obj, d⟩ index).length =
        (cardPrefix obj index).length +
          (distanceLine (d.getD JsNum.nan).val).length + (cardSuffix obj).length := by
      simp [renderObjectCard, ht, String.length_append]
    have h3 : (renderObjectCard ⟨obj, none⟩ index).length =
        (cardPrefix obj index).length + (cardSuffix obj).length := by
      simp [renderObjectCard, jsTruthyNum, String.length_append]
    have hp := distanceLine_length_pos (d.getD JsNum.nan).val
    rw [heq, h3] at h2
    omega
  · simp [renderObjectCard, jsTruthyNum]

/-- Witness for `renderObjectCard_distance_iff_truthy`: with a truthy
distance of `500` the card differs from the distance-less card, and
with distance `0` it coincides with it. -/
theorem renderObjectCard_distance_iff_truthy_witness :
    renderObjectCard ⟨⟨"n", "a", none, none, none⟩, some (JsNum.fin 500)⟩ 0 ≠
      renderObjectCard ⟨⟨"n", "a", none, none, none⟩, none⟩ 0 ∧
    renderObjectCard ⟨⟨"n", "a", none, none, none⟩, some (JsNum.fin 0)⟩ 0 =
      renderObjectCard ⟨⟨"n", "a", none, none, none⟩, none⟩ 0 :=
  ⟨(renderObjectCard_distance_iff_truthy ⟨"n", "a", none, none, none⟩
      (some (JsNum.fin 500)) 0).2.1 (by decide),
    (renderObjectCard_distance_iff_truthy ⟨"n", "a", none, none, none⟩
      (some (JsNum.fin 0)) 0).2.2⟩
